import Mathlib

/-!
Shallow embedding of `pumpwood-streamlit-pkg` (files
`src/pumpwood_streamlit/state_manager.py` and
`src/pumpwood_streamlit/authentication.py`) together with proofs of the
specification claims about it.

Modelling conventions:
* Streamlit's `st.session_state` is an insertion-ordered dictionary from
  string keys to arbitrary Python values; it is embedded as an association
  list `SessionState` with dictionary update semantics (`setState` replaces
  in place, otherwise appends).
* Python values are embedded by the inductive `PyValue` with decidable
  equality (Python `==` / `!=` on the values the library manipulates).
* A trigger object (`StateBeforeGetTrigger`, `StateAfterGetTrigger`,
  `StateBeforeSetTrigger`, `StateAfterSetTrigger`) is embedded as a record
  carrying its class (`Phase`), an identifier used to log invocations, and
  its side effect on the session state (`trigger.run(**kwargs)` may read and
  write `st.session_state`; any other side effect is invisible to the claims).
* `StateManager.TRIGGERS` is a class attribute: a Python dict whose values
  are expected to be lists of triggers but may be arbitrary objects
  (the code guards with `isinstance(..., list)`); it is embedded as
  `TriggersCfg`, with `TriggersEntry.nonList` standing for a non-list value.
* A raised exception is embedded as the `Except.error` branch; the
  operations also return the session state and the invocation log as they
  stand when the operation finishes or raises, mirroring the program point
  of each Python `raise` statement.
* `StateManager.debug_data` only performs file I/O (it never touches
  `st.session_state`), so it does not appear in the embedding.
-/

namespace PumpwoodStreamlit

/-- Embedded Python values: the states stored in `st.session_state` and the
default values passed to `StateManager.get_value`. -/
inductive PyValue where
  | pyNone
  | pyStr (s : String)
  | pyInt (n : Int)
  | pyBool (b : Bool)
  deriving DecidableEq, Repr

/-- Sentinel default of `StateManager.get_value`: the Python literal
`"__empty_value__"` used as the default of the `default_value` argument. -/
def emptyValueSentinel : PyValue := PyValue.pyStr "__empty_value__"

/-- Streamlit `st.session_state`: an insertion-ordered mapping from string
keys to Python values, embedded as an association list. -/
def SessionState : Type := List (String × PyValue)

instance : DecidableEq SessionState := by
  unfold SessionState
  infer_instance

/-- Dictionary lookup, `st.session_state.get(key)` / `st.session_state[key]`. -/
def lookupState : SessionState → String → Option PyValue
  | [], _ => none
  | (k, v) :: rest, key => if k = key then some v else lookupState rest key

/-- Membership test `key in st.session_state`. -/
def containsKey (s : SessionState) (key : String) : Bool :=
  (lookupState s key).isSome

/-- Dictionary write `st.session_state[key] = value`: replaces the value in
place when the key exists, otherwise appends the new entry. -/
def setState : SessionState → String → PyValue → SessionState
  | [], key, value => [(key, value)]
  | (k, v) :: rest, key, value =>
      if k = key then (k, value) :: rest
      else (k, v) :: setState rest key value

/-- Exceptions of `pumpwood_streamlit.exceptions` that the embedded code can
raise: `PumpwoodStreamlitStateNotFoundException` (with its `state` payload),
`PumpwoodStreamlitConfigException` (with a detail string), and
`PumpwoodStreamlitUnauthorizedException`. -/
inductive PwError where
  | stateNotFound (state : String)
  | configError (detail : String)
  | unauthorized
  deriving DecidableEq, Repr

/-- Classes of the four concrete `StateTrigger` subclasses in
`state_manager.py`; `isinstance(trigger, StateBeforeGetTrigger)` and friends
become equality tests on this tag. -/
inductive Phase where
  | beforeGet
  | afterGet
  | beforeSet
  | afterSet
  deriving DecidableEq, Repr

/-- A trigger object: its class tag, an identifier recorded when
`trigger.run(**kwargs)` is called, and the effect its `run` has on
`st.session_state`. -/
structure StTrigger where
  phase : Phase
  id : Nat
  effect : SessionState → SessionState

/-- Value stored under a key of `StateManager.TRIGGERS`: a list of triggers,
or any non-list Python object (rejected by the `isinstance` guard). -/
inductive TriggersEntry where
  | tlist (ts : List StTrigger)
  | nonList

/-- The `StateManager.TRIGGERS` dict: `none` when the key is missing. -/
def TriggersCfg : Type := String → Option TriggersEntry

/-- TRIGGERS of the base `StateManager` class: the empty dict `{}`. -/
def baseTRIGGERS : TriggersCfg := fun _ => none

/-- Python `cls.TRIGGERS.get(state, [])`. -/
def triggersGet (cfg : TriggersCfg) (state : String) : TriggersEntry :=
  (cfg state).getD (TriggersEntry.tlist [])

/-- One pass of a `for trigger in state_name_triggers` loop guarded by an
`isinstance` check for class `ph`: runs each matching trigger in list order,
applying its session-state effect and appending its id to the log. -/
def runPhase (ph : Phase) :
    List StTrigger → SessionState → List Nat → SessionState × List Nat
  | [], s, log => (s, log)
  | t :: rest, s, log =>
      if t.phase = ph then runPhase ph rest (t.effect s) (log ++ [t.id])
      else runPhase ph rest s log

/-- Session-state effect of running the triggers of class `ph` of a list in
order (the log-free companion of `runPhase`). -/
def applyPhase (ph : Phase) : List StTrigger → SessionState → SessionState
  | [], s => s
  | t :: rest, s =>
      if t.phase = ph then applyPhase ph rest (t.effect s)
      else applyPhase ph rest s

/-- Ids of the triggers of class `ph` of a list, in list order. -/
def phaseIds (ph : Phase) : List StTrigger → List Nat
  | [] => []
  | t :: rest =>
      if t.phase = ph then t.id :: phaseIds ph rest
      else phaseIds ph rest

/-- Result of an embedded `get_value` / `set_value` call: the outcome (or
raised exception), the session state when the call returns or raises, and
the ids of the triggers that were invoked, in invocation order. -/
structure OpResult (α : Type) where
  res : Except PwError α
  session : SessionState
  log : List Nat

/-- Test that an `OpResult` raised (its `res` is an `Except.error`). -/
def OpResult.raised {α : Type} (r : OpResult α) : Bool :=
  match r.res with
  | Except.error _ => true
  | Except.ok _ => false

/-- `StateManager.init(state, init_value, force_value)`: writes `init_value`
under `state` when the key is absent or `force_value` is set, otherwise
leaves the session state alone; returns the (unprefixed) key. -/
def init (session : SessionState) (state : String) (init_value : PyValue)
    (force_value : Bool) : SessionState × String :=
  if containsKey session state = false ∨ force_value = true then
    (setState session state init_value, state)
  else
    (session, state)

/-- `StateManager.get_value(state, default_value, **kwargs)`. Raises
`PumpwoodStreamlitStateNotFoundException` when the key is absent and
`default_value` equals the sentinel; raises
`PumpwoodStreamlitConfigException` when the TRIGGERS entry is not a list;
otherwise runs the before-get triggers, reads the value (falling back to
`default_value`), runs the after-get triggers, and returns the value read.
Calling with `default_value = emptyValueSentinel` is the embedded form of a
call that omits the `default_value` argument. -/
def get_value (cfg : TriggersCfg) (session : SessionState) (state : String)
    (default_value : PyValue) : OpResult PyValue :=
  if ¬ (containsKey session state = true ∨ default_value ≠ emptyValueSentinel)
  then
    { res := Except.error (PwError.stateNotFound state),
      session := session, log := [] }
  else
    match triggersGet cfg state with
    | TriggersEntry.nonList =>
        { res := Except.error (PwError.configError state),
          session := session, log := [] }
    | TriggersEntry.tlist ts =>
        let step1 := runPhase Phase.beforeGet ts session []
        let state_value := (lookupState step1.1 state).getD default_value
        let step2 := runPhase Phase.afterGet ts step1.1 step1.2
        { res := Except.ok state_value, session := step2.1, log := step2.2 }

/-- `StateManager.set_value(state, value, ignore_init_error, **kwargs)`.
Raises `PumpwoodStreamlitStateNotFoundException` when the key is absent and
`ignore_init_error` is false; raises `PumpwoodStreamlitConfigException` when
the TRIGGERS entry is not a list; otherwise runs the before-set triggers,
writes the value, runs the after-set triggers, and returns `True`. -/
def set_value (cfg : TriggersCfg) (session : SessionState) (state : String)
    (value : PyValue) (ignore_init_error : Bool) : OpResult Bool :=
  if ¬ (containsKey session state = true ∨ ignore_init_error = true) then
    { res := Except.error (PwError.stateNotFound state),
      session := session, log := [] }
  else
    match triggersGet cfg state with
    | TriggersEntry.nonList =>
        { res := Except.error (PwError.configError state),
          session := session, log := [] }
    | TriggersEntry.tlist ts =>
        let step1 := runPhase Phase.beforeSet ts session []
        let written := setState step1.1 state value
        let step2 := runPhase Phase.afterSet ts written step1.2
        { res := Except.ok true, session := step2.1, log := step2.2 }

/-- Auth header dict, e.g. `{"Authorization": token}`. -/
def AuthHeader : Type := List (String × String)

instance : DecidableEq AuthHeader := by
  unfold AuthHeader
  infer_instance

/-- String lookup in a cookies dict (`st.context.cookies.get(name)`). -/
def lookupStr : List (String × String) → String → Option String
  | [], _ => none
  | (k, v) :: rest, key => if k = key then some v else lookupStr rest key

/-- `StreamlitPumpwoodAuthetication.get_auth_header`: returns the stored
`auth_header` when already set; otherwise builds
`{"Authorization": "Token " + cookie}` from the `PumpwoodAuthorization`
cookie, when present. The returned value is also the new `auth_header`
attribute. -/
def get_auth_header (cookies : List (String × String))
    (auth_header : Option AuthHeader) : Option AuthHeader :=
  match auth_header with
  | some h => some h
  | none =>
      match lookupStr cookies "PumpwoodAuthorization" with
      | some c => some [("Authorization", "Token " ++ c)]
      | none => none

/-- `StreamlitPumpwoodAuthetication.check_if_logged(raise_error)`: resolves
the auth header, asks the microservice (`check`) whether it is logged, and
raises `PumpwoodStreamlitUnauthorizedException` when not logged and
`raise_error` is true, otherwise returns the boolean. -/
def check_if_logged (check : Option AuthHeader → Bool)
    (cookies : List (String × String)) (auth_header : Option AuthHeader)
    (raise_error : Bool) : Except PwError Bool :=
  let h := get_auth_header cookies auth_header
  let is_logged := check h
  if is_logged = false ∧ raise_error = true then
    Except.error PwError.unauthorized
  else
    Except.ok is_logged

/-- `StreamlitPumpwoodAuthetication.__init__`: starts with `auth_header =
None`; when the `DEBUG_AUTHORIZATION_TOKEN` environment variable is truthy
(set and non-empty) and `os.getenv("DEPLOY", "FALSE") == "TRUE"`, raises
`PumpwoodStreamlitConfigException`; when the token is truthy and DEPLOY is
anything else, stores `{"Authorization": token}`; otherwise leaves
`auth_header = None`. Returns the initial `auth_header`. -/
def authInit (debug_token : Option String) (deploy : Option String) :
    Except PwError (Option AuthHeader) :=
  let deployFlag := deploy.getD "FALSE" = "TRUE"
  match debug_token with
  | none => Except.ok none
  | some t =>
      if t ≠ "" then
        if deployFlag then
          Except.error (PwError.configError "DEBUG_AUTHORIZATION_TOKEN")
        else
          Except.ok (some [("Authorization", t)])
      else
        Except.ok none

/-! Helper lemmas about the embedded dictionary and trigger loops. -/

/-- Running a phase loop applies the phase effects and appends the phase ids
to the log, in list order. -/
theorem runPhase_eq (ph : Phase) (ts : List StTrigger) :
    ∀ (s : SessionState) (log : List Nat),
      runPhase ph ts s log = (applyPhase ph ts s, log ++ phaseIds ph ts) := by
  induction ts with
  | nil =>
      intro s log
      simp [runPhase, applyPhase, phaseIds]
  | cons t rest ih =>
      intro s log
      by_cases h : t.phase = ph
      · simp [runPhase, applyPhase, phaseIds, h, ih]
      · simp [runPhase, applyPhase, phaseIds, h, ih]

/-- A key is absent exactly when its lookup yields nothing. -/
theorem containsKey_eq_false_iff (s : SessionState) (k : String) :
    containsKey s k = false ↔ lookupState s k = none := by
  unfold containsKey
  cases lookupState s k <;> simp

/-- A key is present exactly when its lookup yields a value. -/
theorem containsKey_eq_true_iff (s : SessionState) (k : String) :
    containsKey s k = true ↔ ∃ v, lookupState s k = some v := by
  unfold containsKey
  cases lookupState s k <;> simp

/-- A dictionary write behaves as a pointwise update of the lookup. -/
theorem lookupState_setState (s : SessionState) (k k0 : String)
    (v : PyValue) :
    lookupState (setState s k v) k0 =
      if k = k0 then some v else lookupState s k0 := by
  induction s with
  | nil => by_cases h : k = k0 <;> simp [setState, lookupState, h]
  | cons hd rest ih =>
      obtain ⟨k1, v1⟩ := hd
      by_cases hk : k1 = k
      · subst hk
        by_cases h0 : k1 = k0 <;> simp [setState, lookupState, h0]
      · have hk' : ¬ k = k1 := fun h => hk h.symm
        by_cases h0 : k1 = k0
        · subst h0
          simp [setState, lookupState, hk, hk']
        · simp [setState, lookupState, hk, h0, ih]

/-- Looking up the key just written returns the written value. -/
theorem lookupState_setState_self (s : SessionState) (k : String)
    (v : PyValue) : lookupState (setState s k v) k = some v := by
  rw [lookupState_setState]
  simp

/-- A dictionary write never removes a present key. -/
theorem containsKey_setState (s : SessionState) (k k0 : String) (v : PyValue)
    (h : containsKey s k0 = true) :
    containsKey (setState s k v) k0 = true := by
  unfold containsKey
  rw [lookupState_setState]
  by_cases hk : k = k0
  · simp [hk]
  · rw [if_neg hk]
    exact h

/-- When every trigger of the list preserves key presence, so does running a
whole phase of the list. -/
theorem containsKey_applyPhase (ph : Phase) (ts : List StTrigger)
    (heff : ∀ t ∈ ts, ∀ (s : SessionState) (k2 : String),
      containsKey s k2 = true → containsKey (t.effect s) k2 = true) :
    ∀ (s : SessionState) (k0 : String), containsKey s k0 = true →
      containsKey (applyPhase ph ts s) k0 = true := by
  induction ts with
  | nil =>
      intro s k0 h
      simpa [applyPhase] using h
  | cons t rest ih =>
      intro s k0 h
      by_cases hp : t.phase = ph
      · simp only [applyPhase, if_pos hp]
        exact ih (fun t' ht' => heff t' (List.mem_cons_of_mem _ ht')) _ _
          (heff t (List.mem_cons_self _ _) s k0 h)
      · simp only [applyPhase, if_neg hp]
        exact ih (fun t' ht' => heff t' (List.mem_cons_of_mem _ ht')) _ _ h

/-- Unfolding of `get_value` when the key has no TRIGGERS entry: no trigger
runs, the session state is untouched, and the result is the lookup with the
default as fallback (or the not-found error). -/
theorem get_value_none_cfg (cfg : TriggersCfg) (session : SessionState)
    (k : String) (d : PyValue) (hcfg : cfg k = none) :
    get_value cfg session k d =
      if containsKey session k = true ∨ d ≠ emptyValueSentinel then
        { res := Except.ok ((lookupState session k).getD d),
          session := session, log := [] }
      else
        { res := Except.error (PwError.stateNotFound k),
          session := session, log := [] } := by
  unfold get_value triggersGet
  rw [hcfg]
  by_cases h : containsKey session k = true ∨ d ≠ emptyValueSentinel
  · rw [if_neg (not_not_intro h), if_pos h]
    simp [runPhase]
  · rw [if_pos h, if_neg h]

/-- Unfolding of `set_value` when the key has no TRIGGERS entry: no trigger
runs and the write is a plain dictionary update (or the not-found error). -/
theorem set_value_none_cfg (cfg : TriggersCfg) (session : SessionState)
    (k : String) (v : PyValue) (ignore : Bool) (hcfg : cfg k = none) :
    set_value cfg session k v ignore =
      if containsKey session k = true ∨ ignore = true then
        { res := Except.ok true,
          session := setState session k v, log := [] }
      else
        { res := Except.error (PwError.stateNotFound k),
          session := session, log := [] } := by
  unfold set_value triggersGet
  rw [hcfg]
  by_cases h : containsKey session k = true ∨ ignore = true
  · rw [if_neg (not_not_intro h), if_pos h]
    simp [runPhase]
  · rw [if_pos h, if_neg h]

/-- Unfolding of `get_value` on a list TRIGGERS entry when the presence
check passes: before-get effects, then the lookup, then after-get effects,
with the invocation log listing before-get ids then after-get ids. -/
theorem get_value_tlist (cfg : TriggersCfg) (session : SessionState)
    (k : String) (d : PyValue) (ts : List StTrigger)
    (hcfg : cfg k = some (TriggersEntry.tlist ts))
    (hpres : containsKey session k = true ∨ d ≠ emptyValueSentinel) :
    get_value cfg session k d =
      { res := Except.ok
          ((lookupState (applyPhase Phase.beforeGet ts session) k).getD d),
        session := applyPhase Phase.afterGet ts
          (applyPhase Phase.beforeGet ts session),
        log := phaseIds Phase.beforeGet ts ++ phaseIds Phase.afterGet ts } := by
  unfold get_value triggersGet
  rw [hcfg]
  rw [if_neg (not_not_intro hpres)]
  simp [runPhase_eq]

/-- Unfolding of `set_value` on a list TRIGGERS entry when the presence
check passes: before-set effects, then the dictionary write, then after-set
effects, with the invocation log listing before-set ids then after-set
ids. -/
theorem set_value_tlist (cfg : TriggersCfg) (session : SessionState)
    (k : String) (v : PyValue) (ignore : Bool) (ts : List StTrigger)
    (hcfg : cfg k = some (TriggersEntry.tlist ts))
    (hpres : containsKey session k = true ∨ ignore = true) :
    set_value cfg session k v ignore =
      { res := Except.ok true,
        session := applyPhase Phase.afterSet ts
          (setState (applyPhase Phase.beforeSet ts session) k v),
        log := phaseIds Phase.beforeSet ts ++ phaseIds Phase.afterSet ts } := by
  unfold set_value triggersGet
  rw [hcfg]
  rw [if_neg (not_not_intro hpres)]
  simp [runPhase_eq]

/-! Demonstration triggers used to exercise the claim theorems at concrete
inputs. -/

/-- Demonstration trigger with an identity session effect. -/
def demoTrigger (ph : Phase) (n : Nat) : StTrigger :=
  { phase := ph, id := n, effect := fun s => s }

/-- Demonstration trigger list holding one trigger of each class, listed out
of phase order to exercise the ordering claims. -/
def demoTS : List StTrigger :=
  [demoTrigger Phase.afterGet 0, demoTrigger Phase.beforeGet 1,
   demoTrigger Phase.beforeSet 2, demoTrigger Phase.afterSet 3]

/-- Demonstration TRIGGERS dict mapping every key to `demoTS`. -/
def demoCfg : TriggersCfg := fun _ => some (TriggersEntry.tlist demoTS)

/-! Claim theorems. -/

/-- Claim C1: with the base class TRIGGERS (the empty dict), `get_value`
raises the state-not-found exception exactly when the key is absent from
the session state and no default is given (the `default_value` argument is
the omission sentinel); otherwise it returns the value stored under the key
when present, and the given default when absent. -/
theorem claim_c1_get_value_default (session : SessionState) (k : String)
    (d : PyValue) :
    ((get_value baseTRIGGERS session k d).res
        = Except.error (PwError.stateNotFound k) ↔
      containsKey session k = false ∧ d = emptyValueSentinel)
    ∧ (∀ v, lookupState session k = some v →
        (get_value baseTRIGGERS session k d).res = Except.ok v)
    ∧ (containsKey session k = false → d ≠ emptyValueSentinel →
        (get_value baseTRIGGERS session k d).res = Except.ok d) := by
  rw [get_value_none_cfg baseTRIGGERS session k d rfl]
  by_cases h : containsKey session k = true ∨ d ≠ emptyValueSentinel
  · rw [if_pos h]
    refine ⟨?_, ?_, ?_⟩
    · constructor
      · intro hcon
        exact Except.noConfusion hcon
      · rintro ⟨hc, hd⟩
        rcases h with h1 | h1
        · rw [hc] at h1
          exact Bool.noConfusion h1
        · exact absurd hd h1
    · intro v hv
      simp [hv]
    · intro hc hd
      have hnone : lookupState session k = none :=
        (containsKey_eq_false_iff session k).mp hc
      simp [hnone]
  · rw [if_neg h]
    push_neg at h
    obtain ⟨h1, h2⟩ := h
    refine ⟨?_, ?_, ?_⟩
    · constructor
      · intro _
        exact ⟨by simpa using h1, h2⟩
      · intro _
        rfl
    · intro v hv
      exact absurd ((containsKey_eq_true_iff session k).mpr ⟨v, hv⟩) h1
    · intro hc hd
      exact absurd h2 hd

/-- Witness for C1 at a concrete input: a present key is read back. -/
theorem claim_c1_get_value_default_witness :
    (get_value baseTRIGGERS [("a", PyValue.pyInt 1)] "a"
      (PyValue.pyInt 7)).res = Except.ok (PyValue.pyInt 1) :=
  (claim_c1_get_value_default [("a", PyValue.pyInt 1)] "a"
    (PyValue.pyInt 7)).2.1 (PyValue.pyInt 1) (by decide)

/-- Claim C2: with the base class TRIGGERS, `set_value` raises the
state-not-found exception exactly when the key is absent and
`ignore_init_error` is false; otherwise it returns `True` and afterwards the
key is present with the written value. -/
theorem claim_c2_set_value (session : SessionState) (k : String)
    (v : PyValue) (ignore : Bool) :
    ((set_value baseTRIGGERS session k v ignore).res
        = Except.error (PwError.stateNotFound k) ↔
      containsKey session k = false ∧ ignore = false)
    ∧ (containsKey session k = true ∨ ignore = true →
        (set_value baseTRIGGERS session k v ignore).res = Except.ok true
        ∧ lookupState (set_value baseTRIGGERS session k v ignore).session k
            = some v) := by
  rw [set_value_none_cfg baseTRIGGERS session k v ignore rfl]
  by_cases h : containsKey session k = true ∨ ignore = true
  · rw [if_pos h]
    refine ⟨⟨fun hcon => Except.noConfusion hcon, ?_⟩, ?_⟩
    · rintro ⟨hc, hi⟩
      rcases h with h1 | h1
      · rw [hc] at h1
        exact Bool.noConfusion h1
      · rw [hi] at h1
        exact Bool.noConfusion h1
    · intro _
      exact ⟨rfl, lookupState_setState_self session k v⟩
  · rw [if_neg h]
    push_neg at h
    obtain ⟨h1, h2⟩ := h
    refine ⟨⟨fun _ => ⟨by simpa using h1, by simpa using h2⟩,
      fun _ => rfl⟩, ?_⟩
    rintro (hp | hp)
    · exact absurd hp h1
    · exact absurd hp h2

/-- Witness for C2 at a concrete input: writing over a present key stores
the new value. -/
theorem claim_c2_set_value_witness :
    lookupState
      (set_value baseTRIGGERS [("a", PyValue.pyInt 1)] "a"
        (PyValue.pyInt 2) false).session "a" = some (PyValue.pyInt 2) :=
  ((claim_c2_set_value [("a", PyValue.pyInt 1)] "a" (PyValue.pyInt 2)
    false).2 (Or.inl (by decide))).2

/-- Claim C3: `init` stores the value exactly when the key is absent or
`force_value` is true; when the key is present and `force_value` is false
the session state (hence the stored value) is unchanged. -/
theorem claim_c3_init (session : SessionState) (k : String) (v : PyValue)
    (force : Bool) :
    (containsKey session k = false ∨ force = true →
      lookupState (init session k v force).1 k = some v)
    ∧ (containsKey session k = true → force = false →
      (init session k v force).1 = session) := by
  constructor
  · intro h
    unfold init
    rw [if_pos h]
    exact lookupState_setState_self session k v
  · intro hc hf
    have hcond : ¬ (containsKey session k = false ∨ force = true) := by
      rintro (h | h)
      · rw [hc] at h
        exact Bool.noConfusion h
      · rw [hf] at h
        exact Bool.noConfusion h
    unfold init
    rw [if_neg hcond]

/-- Witness for C3 at a concrete input: a fresh key is initialised. -/
theorem claim_c3_init_witness :
    lookupState (init [] "a" (PyValue.pyInt 5) false).1 "a"
      = some (PyValue.pyInt 5) :=
  (claim_c3_init [] "a" (PyValue.pyInt 5) false).1 (Or.inl (by decide))

/-- Claim C4: on a list TRIGGERS entry, `get_value` runs the before-get
triggers of the list in list order, then reads the value, then runs the
after-get triggers in list order; `set_value` runs the before-set triggers
in list order, then writes, then runs the after-set triggers in list order;
the invocation log holds exactly the ids of those phases, so triggers of
the other phases are not invoked by the operation. -/
theorem claim_c4_trigger_order (cfg : TriggersCfg) (session : SessionState)
    (k : String) (ts : List StTrigger) (d v : PyValue) (ignore : Bool)
    (hcfg : cfg k = some (TriggersEntry.tlist ts)) :
    (containsKey session k = true ∨ d ≠ emptyValueSentinel →
      get_value cfg session k d =
        { res := Except.ok
            ((lookupState (applyPhase Phase.beforeGet ts session) k).getD d),
          session := applyPhase Phase.afterGet ts
            (applyPhase Phase.beforeGet ts session),
          log := phaseIds Phase.beforeGet ts ++ phaseIds Phase.afterGet ts })
    ∧ (containsKey session k = true ∨ ignore = true →
      set_value cfg session k v ignore =
        { res := Except.ok true,
          session := applyPhase Phase.afterSet ts
            (setState (applyPhase Phase.beforeSet ts session) k v),
          log := phaseIds Phase.beforeSet ts
            ++ phaseIds Phase.afterSet ts }) :=
  ⟨fun hp => get_value_tlist cfg session k d ts hcfg hp,
   fun hp => set_value_tlist cfg session k v ignore ts hcfg hp⟩

/-- Witness for C4 at a concrete input: the get log lists the before-get id
then the after-get id, skipping the set-phase triggers. -/
theorem claim_c4_trigger_order_witness :
    (get_value demoCfg [("x", PyValue.pyInt 9)] "x" emptyValueSentinel).log
      = phaseIds Phase.beforeGet demoTS ++ phaseIds Phase.afterGet demoTS :=
  congrArg OpResult.log
    ((claim_c4_trigger_order demoCfg [("x", PyValue.pyInt 9)] "x" demoTS
      emptyValueSentinel (PyValue.pyInt 0) false rfl).1
      (Or.inl (by decide)))

/-- Claim C5: whenever `get_value` or `set_value` raises (state-not-found
or the TRIGGERS configuration error), the session state is unchanged and no
trigger has been invoked. -/
theorem claim_c5_error_atomicity (cfg : TriggersCfg) (session : SessionState)
    (k : String) (d v : PyValue) (ignore : Bool) :
    ((get_value cfg session k d).raised = true →
      (get_value cfg session k d).session = session
      ∧ (get_value cfg session k d).log = [])
    ∧ ((set_value cfg session k v ignore).raised = true →
      (set_value cfg session k v ignore).session = session
      ∧ (set_value cfg session k v ignore).log = []) := by
  constructor
  · unfold get_value
    split
    · intro _
      exact ⟨rfl, rfl⟩
    · split
      · intro _
        exact ⟨rfl, rfl⟩
      · intro h
        simp [OpResult.raised] at h
  · unfold set_value
    split
    · intro _
      exact ⟨rfl, rfl⟩
    · split
      · intro _
        exact ⟨rfl, rfl⟩
      · intro h
        simp [OpResult.raised] at h

/-- Witness for C5 at a concrete input: a get on an absent key raises and
leaves the empty session state empty with an empty invocation log. -/
theorem claim_c5_error_atomicity_witness :
    (get_value baseTRIGGERS [] "a" emptyValueSentinel).session = []
    ∧ (get_value baseTRIGGERS [] "a" emptyValueSentinel).log = [] :=
  (claim_c5_error_atomicity baseTRIGGERS [] "a" emptyValueSentinel
    (PyValue.pyInt 0) false).1 (by decide)

/-- Claim C6: with no registered triggers for the key, a successful
`set_value` followed by `get_value` returns the written value; both address
the session state with the key string verbatim (no name mangling), so the
write is visible under the very same key. -/
theorem claim_c6_roundtrip (cfg : TriggersCfg) (session : SessionState)
    (k : String) (v : PyValue) (ignore : Bool)
    (hcfg : cfg k = none)
    (hpres : containsKey session k = true ∨ ignore = true) :
    (set_value cfg session k v ignore).res = Except.ok true
    ∧ lookupState (set_value cfg session k v ignore).session k = some v
    ∧ (get_value cfg (set_value cfg session k v ignore).session k
        emptyValueSentinel).res = Except.ok v := by
  rw [set_value_none_cfg cfg session k v ignore hcfg, if_pos hpres]
  refine ⟨rfl, lookupState_setState_self session k v, ?_⟩
  rw [get_value_none_cfg cfg (setState session k v) k emptyValueSentinel
    hcfg]
  have hc : containsKey (setState session k v) k = true :=
    (containsKey_eq_true_iff _ _).mpr
      ⟨v, lookupState_setState_self session k v⟩
  rw [if_pos (Or.inl hc)]
  simp [lookupState_setState_self]

/-- Witness for C6 at a concrete input: set then get round-trips. -/
theorem claim_c6_roundtrip_witness :
    (get_value baseTRIGGERS
      (set_value baseTRIGGERS [] "k" (PyValue.pyInt 3) true).session "k"
      emptyValueSentinel).res = Except.ok (PyValue.pyInt 3) :=
  (claim_c6_roundtrip baseTRIGGERS [] "k" (PyValue.pyInt 3) true rfl
    (Or.inr rfl)).2.2

/-- Claim C7: assuming every trigger registered for the accessed key
preserves key presence, every key present before `init`, `get_value` or
`set_value` is still present after the call; the set of stored keys never
shrinks. -/
theorem claim_c7_keys_preserved (cfg : TriggersCfg) (session : SessionState)
    (k k0 : String) (iv d v : PyValue) (force ignore : Bool)
    (heff : ∀ ts, triggersGet cfg k = TriggersEntry.tlist ts →
      ∀ t ∈ ts, ∀ (s : SessionState) (k2 : String),
        containsKey s k2 = true → containsKey (t.effect s) k2 = true)
    (h0 : containsKey session k0 = true) :
    containsKey (init session k iv force).1 k0 = true
    ∧ containsKey (get_value cfg session k d).session k0 = true
    ∧ containsKey (set_value cfg session k v ignore).session k0 = true := by
  refine ⟨?_, ?_, ?_⟩
  · unfold init
    split
    · exact containsKey_setState session k k0 iv h0
    · exact h0
  · unfold get_value
    split
    · exact h0
    · split
      · exact h0
      · rename_i ts heq
        simp only [runPhase_eq]
        exact containsKey_applyPhase Phase.afterGet ts (heff ts heq) _ _
          (containsKey_applyPhase Phase.beforeGet ts (heff ts heq) _ _ h0)
  · unfold set_value
    split
    · exact h0
    · split
      · exact h0
      · rename_i ts heq
        simp only [runPhase_eq]
        exact containsKey_applyPhase Phase.afterSet ts (heff ts heq) _ _
          (containsKey_setState _ k k0 v
            (containsKey_applyPhase Phase.beforeSet ts (heff ts heq) _ _
              h0))

/-- Witness for C7 at a concrete input: initialising a new key keeps the
old key present. -/
theorem claim_c7_keys_preserved_witness :
    containsKey (init [("a", PyValue.pyInt 1)] "b" PyValue.pyNone false).1
      "a" = true :=
  (claim_c7_keys_preserved baseTRIGGERS [("a", PyValue.pyInt 1)] "b" "a"
    PyValue.pyNone PyValue.pyNone PyValue.pyNone false false
    (by
      intro ts heq t ht s k2 hk
      have h2 : TriggersEntry.tlist ([] : List StTrigger)
          = TriggersEntry.tlist ts := heq
      cases h2
      cases ht)
    (by decide)).1

/-- Claim C8: passing the literal string `"__empty_value__"` as the default
is indistinguishable from omitting the default (it is the omission
sentinel), so such a call raises the state-not-found exception when the key
is absent. -/
theorem claim_c8_sentinel (cfg : TriggersCfg) (session : SessionState)
    (k : String) :
    get_value cfg session k (PyValue.pyStr "__empty_value__")
      = get_value cfg session k emptyValueSentinel
    ∧ (containsKey session k = false →
      (get_value cfg session k (PyValue.pyStr "__empty_value__")).res
        = Except.error (PwError.stateNotFound k)) := by
  refine ⟨rfl, ?_⟩
  intro hc
  have hcond : ¬ (containsKey session k = true
      ∨ (PyValue.pyStr "__empty_value__" : PyValue) ≠ emptyValueSentinel) := by
    rintro (h | h)
    · rw [hc] at h
      exact Bool.noConfusion h
    · exact h rfl
  unfold get_value
  rw [if_pos hcond]

/-- Witness for C8 at a concrete input: the sentinel-string default raises
on an absent key. -/
theorem claim_c8_sentinel_witness :
    (get_value baseTRIGGERS [] "a" (PyValue.pyStr "__empty_value__")).res
      = Except.error (PwError.stateNotFound "a") :=
  (claim_c8_sentinel baseTRIGGERS [] "a").2 (by decide)

/-- Claim C9: `check_if_logged` returns the remote boolean when it is true
or when `raise_error` is false, and raises the unauthorized exception when
the remote check reports not-logged and `raise_error` is true. -/
theorem claim_c9_check_if_logged (check : Option AuthHeader → Bool)
    (cookies : List (String × String)) (auth_header : Option AuthHeader)
    (raise_error : Bool) :
    (check (get_auth_header cookies auth_header) = true →
      check_if_logged check cookies auth_header raise_error = Except.ok true)
    ∧ (raise_error = false →
      check_if_logged check cookies auth_header raise_error
        = Except.ok (check (get_auth_header cookies auth_header)))
    ∧ (check (get_auth_header cookies auth_header) = false →
      raise_error = true →
      check_if_logged check cookies auth_header raise_error
        = Except.error PwError.unauthorized) := by
  refine ⟨?_, ?_, ?_⟩
  · intro h
    simp [check_if_logged, h]
  · intro h
    simp [check_if_logged, h]
  · intro h1 h2
    simp [check_if_logged, h1, h2]

/-- Witness for C9 at a concrete input: an always-false remote check with
`raise_error=True` raises the unauthorized exception. -/
theorem claim_c9_check_if_logged_witness :
    check_if_logged (fun _ => false) [] none true
      = Except.error PwError.unauthorized :=
  (claim_c9_check_if_logged (fun _ => false) [] none true).2.2 rfl rfl

/-- Claim C10: with a non-empty `DEBUG_AUTHORIZATION_TOKEN`, construction
raises the configuration exception when `DEPLOY` is exactly `"TRUE"`, and
otherwise succeeds with auth header `{"Authorization": token}`. -/
theorem claim_c10_deploy_lock (token : String) (deploy : Option String)
    (htok : token ≠ "") :
    (deploy = some "TRUE" →
      authInit (some token) deploy
        = Except.error (PwError.configError "DEBUG_AUTHORIZATION_TOKEN"))
    ∧ (deploy.getD "FALSE" ≠ "TRUE" →
      authInit (some token) deploy
        = Except.ok (some [("Authorization", token)])) := by
  constructor
  · intro hd
    subst hd
    simp [authInit, htok]
  · intro hd
    simp [authInit, htok, hd]

/-- Witness for C10 at a concrete input: debug token with DEPLOY=TRUE is
rejected. -/
theorem claim_c10_deploy_lock_witness :
    authInit (some "token-x") (some "TRUE")
      = Except.error (PwError.configError "DEBUG_AUTHORIZATION_TOKEN") :=
  (claim_c10_deploy_lock "token-x" (some "TRUE") (by decide)).1 rfl

end PumpwoodStreamlit
